import Mathlib

/-!
Verification of `binja_explain_instruction` (`src/__init__.py`): a shallow
embedding of the plugin's orchestration — architecture selection and caching
(`init_plugin`), IL source selection, the override/explainer merge rule, the
symbol-dereference pass and the display bundle (`explain_instruction`) —
together with spec-modelled definitions for the collaborating modules
(`explain.fold_multi_il`, `explain.explain_llil`, `util.dereference_symbols`,
the per-architecture override modules) whose source files are not part of the
repository snapshot under verification.
-/

deriving instance DecidableEq for Except

namespace BinjaExplain

/-- Operation kinds of IL statements, reduced to the distinctions the folding
patterns of the spec need: a flag-computing statement, a conditional branch on
a flag, and everything else. -/
inductive ILOp where
  | setFlag
  | condBranchOnFlag
  | other
deriving DecidableEq, Repr

/-- An IL statement as exposed by the host platform: its display text, an
optional literal operand value, its operation kind and its lifted-IL
instruction index (`instr_index`). Read-only view owned by the host. -/
structure ILStatement where
  op : ILOp
  text : String
  literal : Option Nat
  instr_index : Nat
deriving DecidableEq, Repr

/-- A folded unit: either a single pass-through IL statement or a synthetic
merged representation standing in for two or more original statements. -/
inductive FoldedUnit where
  | single (s : ILStatement)
  | merged (ss : List ILStatement)
deriving DecidableEq, Repr

/-- Does the list `s` start with the list `t`? -/
def listStartsWith : List Char → List Char → Bool
  | _, [] => true
  | [], _ :: _ => false
  | a :: s, b :: t => a = b && listStartsWith s t

/-- Does the list `s` contain `t` as a contiguous sub-list?  Models Python's
`in` test on strings. -/
def listContainsSub : List Char → List Char → Bool
  | [], t => listStartsWith [] t
  | a :: s, t => listStartsWith (a :: s) t || listContainsSub s t

/-- Python's `sub in s` substring test. -/
def strContains (s sub : String) : Bool :=
  listContainsSub s.toList sub.toList

/-- The per-architecture override modules of the registry, one per supported
instruction-set architecture (`x86`, `mips`, `aarch64`, `ual` for arm/thumb,
`asm6502`, `msp430`, `powerpc`). -/
inductive ArchModuleId where
  | x86
  | mips
  | aarch64
  | ual
  | asm6502
  | msp430
  | powerpc
deriving DecidableEq, Repr

/-- The architecture-selection chain of `init_plugin` (src/__init__.py lines
26-42): substring tests on the architecture name, in source order, first
match wins; `none` models the `TypeError` raised when nothing matches. -/
def matchArch (name : String) : Option ArchModuleId :=
  if strContains name "x86" then some ArchModuleId.x86
  else if strContains name "mips" then some ArchModuleId.mips
  else if strContains name "aarch64" then some ArchModuleId.aarch64
  else if strContains name "arm" || strContains name "thumb" then some ArchModuleId.ual
  else if strContains name "6502" then some ArchModuleId.asm6502
  else if strContains name "msp430" then some ArchModuleId.msp430
  else if strContains name "powerpc" then some ArchModuleId.powerpc
  else none

/-- The selection chain rephrased as the spec words it: an ordered table of
(test, module) pairs scanned for the first passing test. Used to compare the
source's if/elif chain against the ordered-first-match reading. -/
def archTests : List ((String → Bool) × ArchModuleId) :=
  [ (fun n => strContains n "x86", ArchModuleId.x86)
  , (fun n => strContains n "mips", ArchModuleId.mips)
  , (fun n => strContains n "aarch64", ArchModuleId.aarch64)
  , (fun n => strContains n "arm" || strContains n "thumb", ArchModuleId.ual)
  , (fun n => strContains n "6502", ArchModuleId.asm6502)
  , (fun n => strContains n "msp430", ArchModuleId.msp430)
  , (fun n => strContains n "powerpc", ArchModuleId.powerpc) ]

/-- First module of `archTests` whose test passes on `name`, if any. -/
def firstMatch (name : String) : Option ArchModuleId :=
  (archTests.find? (fun p => p.1 name)).map (fun p => p.2)

/-- Pre-execution instruction state as produced by the instruction-state
collaborator (`instruction_state.get_state`); its content is opaque to the
orchestration, which only stores or omits it. -/
structure InstrState where
  registers : List (String × Nat)
deriving DecidableEq, Repr

/-- The host platform view (`bv` plus the per-address query results) for one
invocation: the reported architecture name, the instruction text at the
target address, the lifted / low-level / mid-level IL sequences, the
per-lifted-index flags-read and flags-written answers, the symbol table, and
the instruction-state collaborator's answer (`none` models the
`AttributeError` raised when state inference is unsupported for the
architecture). -/
structure Bv where
  archName : String
  instructionText : String
  lifted_il_list : List ILStatement
  llil_list : List ILStatement
  mlil_list : List ILStatement
  flagsRead : Nat → List String
  flagsWritten : Nat → List String
  symbols : List (Nat × String)
  stateResult : Option InstrState

/-- Modelled from the spec: `explain.fold_multi_il` is not under `src/`.
Spec §4.1: scan the sequence for known decomposition patterns (canonical
example: a flag-computing statement immediately followed by a
conditional-branch-on-flag); the matched statements are replaced by one
folded unit, unmatched statements pass through unchanged, preserving order. -/
def foldPattern (a b : ILStatement) : Bool :=
  a.op = ILOp.setFlag && b.op = ILOp.condBranchOnFlag

/-- Modelled from the spec: `explain.fold_multi_il` is not under `src/`.
Folds a sequence of IL statements of one instruction into explainable units:
a recognized pattern pair becomes one merged unit, everything else passes
through as a single unit in order. -/
def fold_multi_il (bv : Bv) : List ILStatement → List FoldedUnit
  | [] => []
  | [a] => [FoldedUnit.single a]
  | a :: b :: rest =>
    if foldPattern a b then FoldedUnit.merged [a, b] :: fold_multi_il bv rest
    else FoldedUnit.single a :: fold_multi_il bv (b :: rest)

/-- Modelled from the spec: `explain.explain_llil` is not under `src/`.
Spec §4.2: each folded unit is interpreted into one explanation line; a
merged unit is described by one compound sentence, and any unit falls back
to a generic line rather than halting the pipeline. -/
def explain_llil (bv : Bv) : FoldedUnit → String
  | FoldedUnit.single s =>
    match s.op with
    | ILOp.setFlag => "computes " ++ s.text ++ " and sets flags"
    | ILOp.condBranchOnFlag => "branches if " ++ s.text
    | ILOp.other => "performs " ++ s.text
  | FoldedUnit.merged ss =>
    "compares and branches: " ++ String.intercalate "; " (ss.map ILStatement.text)

/-- Modelled from the spec: `util.dereference_symbols` is not under `src/`.
Spec §4.4: rewrite a literal operand into its symbolic form when it equals a
known symbol's address; pass the display text through unchanged otherwise. -/
def dereference_symbols (bv : Bv) (s : ILStatement) : String :=
  match s.literal with
  | none => s.text
  | some v =>
    match bv.symbols.lookup v with
    | none => s.text
    | some name => s.text ++ " <" ++ name ++ ">"

/-- Modelled from the spec: the per-architecture modules (`x86`, `mips`,
`aarch64`, `ual`, `asm6502`, `msp430`, `powerpc`) are not under `src/`.
Spec §4.3: each module's `arch_explain_instruction` inspects the raw
instruction and lifted IL and either supplies canned lines with a supersede
flag, or returns `(false, [])` when no special case applies. The x86 module
realizes the spec's atomic compare-and-swap scenario; the remaining modules
are the mandated `(false, [])` default. -/
def moduleFn (m : ArchModuleId) (bv : Bv) (instr : String)
    (lifted : List ILStatement) : Bool × List String :=
  match m with
  | ArchModuleId.x86 =>
    if instr = "lock cmpxchg eax, ebx" then
      (true, ["Performs atomic compare-and-swap"])
    else if instr = "rep movsb" then
      (false, ["Repeats a byte copy ecx times"])
    else (false, [])
  | _ => (false, [])

/-- The module-level default for `architecture_specific_explanation_function`
(src/__init__.py line 17): a lambda ignoring its arguments. -/
def defaultFn (bv : Bv) (instr : String) (lifted : List ILStatement) :
    Bool × List String :=
  (false, ["Architecture-specific explanations unavailable"])

/-- The module-level mutable globals of src/__init__.py lines 16-17: the
cached architecture name `arch` (initially `None`) and the selected override
function, tracked by provenance (`none` = the initial default lambda,
`some m` = module `m`'s `arch_explain_instruction`). -/
structure PluginState where
  arch : Option String
  fnTag : Option ArchModuleId
deriving DecidableEq, Repr

/-- The initial global state: `arch = None` and the default lambda. -/
def initState : PluginState :=
  { arch := none, fnTag := none }

/-- The override function currently held by the
`architecture_specific_explanation_function` global. -/
def currentFn (s : PluginState) : Bv → String → List ILStatement → Bool × List String :=
  match s.fnTag with
  | none => defaultFn
  | some m => moduleFn m

/-- `init_plugin` (src/__init__.py lines 20-46): when the reported
architecture name differs from the cached one, re-derive the override module
by the substring chain — raising `TypeError` when nothing matches — and
replace both globals; when the name equals the cached one, leave the globals
untouched. -/
def init_plugin (s : PluginState) (bv : Bv) : Except String PluginState :=
  if s.arch = some bv.archName then Except.ok s
  else
    match matchArch bv.archName with
    | none => Except.error "Could not identify architecture type!"
    | some m => Except.ok { arch := some bv.archName, fnTag := some m }

/-- The aggregate result written to the `explain_window()` singleton during
one invocation and then shown: raw instruction line, final explanation
lines, dereferenced low-level and mid-level IL text, per-lifted-statement
flags triples, optional pre-execution state, and the warnings logged while
building it. Built afresh per invocation. -/
structure DisplayBundle where
  instruction : String
  description : List String
  llil : List String
  mlil : List String
  flags : List (List String × List String × ILStatement)
  state : Option InstrState
  warnings : List String
deriving DecidableEq, Repr

/-- Python's `hex(addr)` (with the historical `.replace('L', '')`, a no-op
here): `0x` followed by the lowercase hexadecimal digits. -/
def hexAddr (addr : Nat) : String :=
  "0x" ++ String.mk (Nat.toDigits 16 addr)

/-- The IL-source choice of src/__init__.py line 62: the low-level IL list
unless it is empty, in which case the lifted IL list. -/
def ilSource (llil_list lifted_il_list : List ILStatement) : List ILStatement :=
  if llil_list.length > 0 then llil_list else lifted_il_list

/-- `explain_instruction` (src/__init__.py lines 49-110): run `init_plugin`
(propagating its `TypeError`), fetch the per-address data, fold the chosen
IL source, query the selected override function, merge override lines with
the explainer output by the precedence rule, dereference the low-level and
mid-level display text, copy the flags triples verbatim from the host, and
attach the instruction state when available (logging a warning and omitting
it otherwise). Returns the updated globals and the bundle handed to
`show()`. -/
def explain_instruction (s : PluginState) (bv : Bv) (addr : Nat) :
    Except String (PluginState × DisplayBundle) :=
  match init_plugin s bv with
  | Except.error e => Except.error e
  | Except.ok sNew =>
    let instruction := bv.instructionText
    let lifted_il_list := bv.lifted_il_list
    let llil_list := bv.llil_list
    let mlil_list := bv.mlil_list
    let parse_il := fold_multi_il bv (ilSource llil_list lifted_il_list)
    let overrideResult := currentFn sNew bv instruction lifted_il_list
    let should_supersede_llil := overrideResult.1
    let explanation_list := overrideResult.2
    let instructionField := hexAddr addr ++ ":  " ++ instruction
    let description :=
      if explanation_list.length > 0 then
        if should_supersede_llil then
          explanation_list
        else
          explanation_list ++ parse_il.map (explain_llil bv)
      else
        parse_il.map (explain_llil bv)
    let llilField := llil_list.map (dereference_symbols bv)
    let mlilField := mlil_list.map (dereference_symbols bv)
    let flagsField := lifted_il_list.map (fun lifted =>
      (bv.flagsRead lifted.instr_index, bv.flagsWritten lifted.instr_index, lifted))
    let statePair :=
      match bv.stateResult with
      | some st => (some st, ([] : List String))
      | none => (none, ["No instruction state support for this architecture"])
    Except.ok (sNew,
      { instruction := instructionField
      , description := description
      , llil := llilField
      , mlil := mlilField
      , flags := flagsField
      , state := statePair.1
      , warnings := statePair.2 })

/-- No adjacent pair of statements of the sequence matches a fold pattern
(the hypothesis under which folding must be the identity). -/
def noFoldMatch : List ILStatement → Bool
  | a :: b :: rest => !foldPattern a b && noFoldMatch (b :: rest)
  | _ => true

/-- Sample flag-computing comparison statement, used by concrete witnesses. -/
def stmtCmp : ILStatement :=
  { op := ILOp.setFlag, text := "temp0 = eax - ebx", literal := none, instr_index := 0 }

/-- Sample conditional-branch statement, used by concrete witnesses. -/
def stmtBr : ILStatement :=
  { op := ILOp.condBranchOnFlag, text := "flag:z", literal := some 4198400, instr_index := 1 }

/-- Sample ordinary statement, used by concrete witnesses. -/
def stmtMov : ILStatement :=
  { op := ILOp.other, text := "eax = 1", literal := some 1, instr_index := 0 }

theorem fold_multi_il_length_le (bv : Bv) (S : List ILStatement) :
    (fold_multi_il bv S).length ≤ S.length := by
  induction S using fold_multi_il.induct bv with
  | case1 => simp [fold_multi_il]
  | case2 a => simp [fold_multi_il]
  | case3 a b rest h ih =>
    simp [fold_multi_il, h]
    omega
  | case4 a b rest h ih =>
    simp [fold_multi_il, h]
    simp only [List.length_cons] at ih
    omega

theorem fold_multi_il_no_match_id (bv : Bv) (S : List ILStatement)
    (h : noFoldMatch S = true) : fold_multi_il bv S = S.map FoldedUnit.single := by
  induction S using fold_multi_il.induct bv with
  | case1 => simp [fold_multi_il]
  | case2 a => simp [fold_multi_il]
  | case3 a b rest hp ih =>
    simp [noFoldMatch, hp] at h
  | case4 a b rest hp ih =>
    simp only [noFoldMatch, hp, Bool.not_false, Bool.true_and] at h
    simp [fold_multi_il, hp, ih h]

/-- Sample host view for an x86 binary whose current instruction is the
spec's atomic compare-and-swap scenario; used by concrete witnesses. -/
def bvX86 : Bv :=
  { archName := "x86_64"
  , instructionText := "lock cmpxchg eax, ebx"
  , lifted_il_list := [stmtCmp, stmtBr]
  , llil_list := [stmtCmp, stmtBr]
  , mlil_list := [stmtMov]
  , flagsRead := fun _ => []
  , flagsWritten := fun i => if i = 0 then ["z"] else []
  , symbols := [(4198400, "main")]
  , stateResult := some { registers := [("eax", 1)] } }

/-- The plugin globals after a successful x86 selection. -/
def stateX86 : PluginState :=
  { arch := some "x86_64", fnTag := some ArchModuleId.x86 }

/-- C5: `fold(S)` never lengthens the sequence, and when no adjacent pair of
statements matches a fold pattern the result is exactly the input statements,
in order, each passed through as a single unit. -/
theorem fold_length_le_and_identity (bv : Bv) (S : List ILStatement) :
    (fold_multi_il bv S).length ≤ S.length ∧
    (noFoldMatch S = true → fold_multi_il bv S = S.map FoldedUnit.single) :=
  ⟨fold_multi_il_length_le bv S, fold_multi_il_no_match_id bv S⟩

/-- Witness for C5 at the concrete two-statement sequence `[stmtMov, stmtBr]`,
which matches no fold pattern. -/
theorem fold_length_le_and_identity_w :
    (fold_multi_il bvX86 [stmtMov, stmtBr]).length ≤ 2 ∧
    noFoldMatch [stmtMov, stmtBr] = true ∧
    fold_multi_il bvX86 [stmtMov, stmtBr] =
      [FoldedUnit.single stmtMov, FoldedUnit.single stmtBr] :=
  ⟨(fold_length_le_and_identity bvX86 [stmtMov, stmtBr]).1, by decide,
    (fold_length_le_and_identity bvX86 [stmtMov, stmtBr]).2 (by decide)⟩

/-- C2: the Assembler hands the Folder the low-level IL list, falling back to
the lifted IL list exactly when the low-level list is empty; hence the Folder
never receives an empty sequence while a lifted sequence exists. -/
theorem il_source_choice (llil_list lifted_il_list : List ILStatement) :
    (llil_list = [] → ilSource llil_list lifted_il_list = lifted_il_list) ∧
    (llil_list ≠ [] → ilSource llil_list lifted_il_list = llil_list) ∧
    (lifted_il_list ≠ [] → ilSource llil_list lifted_il_list ≠ []) := by
  refine ⟨fun h => ?_, fun h => ?_, fun h => ?_⟩
  · simp [ilSource, h]
  · cases llil_list with
    | nil => exact absurd rfl h
    | cons a l => simp [ilSource]
  · cases llil_list with
    | nil => simpa [ilSource] using h
    | cons a l => simp [ilSource]

/-- Witness for C2: the empty low-level list falls back to the concrete
lifted list, a nonempty low-level list is kept, and the chosen source is
nonempty when the lifted list is. -/
theorem il_source_choice_w :
    ilSource [] [stmtMov] = [stmtMov] ∧
    ilSource [stmtCmp] [stmtMov] = [stmtCmp] ∧
    ilSource [] [stmtMov] ≠ [] :=
  ⟨(il_source_choice [] [stmtMov]).1 rfl,
    (il_source_choice [stmtCmp] [stmtMov]).2.1 (by simp),
    (il_source_choice [] [stmtMov]).2.2 (by simp)⟩

/-- C10: the architecture-selection chain of `init_plugin` agrees everywhere
with the ordered first-match scan over the table (x86, mips, aarch64,
arm-or-thumb, 6502, msp430, powerpc); in particular a name containing both
"x86" and "mips" selects the x86 module. -/
theorem arch_selection_order :
    (∀ name, matchArch name = firstMatch name) ∧
    matchArch "x86mips" = some ArchModuleId.x86 := by
  refine ⟨fun name => ?_, by decide⟩
  cases h1 : strContains name "x86" <;>
  cases h2 : strContains name "mips" <;>
  cases h3 : strContains name "aarch64" <;>
  cases h4 : (strContains name "arm" || strContains name "thumb") <;>
  cases h5 : strContains name "6502" <;>
  cases h6 : strContains name "msp430" <;>
  cases h7 : strContains name "powerpc" <;>
  simp [matchArch, firstMatch, archTests, List.find?, h1, h2, h3, h4, h5, h6, h7]

/-- The explainer output over the folded units of the chosen IL source:
the lines `explain_instruction` appends or falls back to. -/
def explainerOutput (bv : Bv) : List String :=
  (fold_multi_il bv (ilSource bv.llil_list bv.lifted_il_list)).map (explain_llil bv)

theorem explain_instruction_ok_eq (s : PluginState) (bv : Bv) (addr : Nat)
    (sNew : PluginState) (h : init_plugin s bv = Except.ok sNew) :
    explain_instruction s bv addr = Except.ok (sNew,
      { instruction := hexAddr addr ++ ":  " ++ bv.instructionText
      , description :=
          if (currentFn sNew bv bv.instructionText bv.lifted_il_list).2.length > 0 then
            if (currentFn sNew bv bv.instructionText bv.lifted_il_list).1 then
              (currentFn sNew bv bv.instructionText bv.lifted_il_list).2
            else
              (currentFn sNew bv bv.instructionText bv.lifted_il_list).2 ++ explainerOutput bv
          else explainerOutput bv
      , llil := bv.llil_list.map (dereference_symbols bv)
      , mlil := bv.mlil_list.map (dereference_symbols bv)
      , flags := bv.lifted_il_list.map (fun lifted =>
          (bv.flagsRead lifted.instr_index, bv.flagsWritten lifted.instr_index, lifted))
      , state := bv.stateResult
      , warnings :=
          match bv.stateResult with
          | some _ => []
          | none => ["No instruction state support for this architecture"] }) := by
  cases hst : bv.stateResult <;>
    simp [explain_instruction, h, hst, explainerOutput]

theorem explain_instruction_ok_inv (s : PluginState) (bv : Bv) (addr : Nat)
    (sNew : PluginState) (b : DisplayBundle)
    (h : explain_instruction s bv addr = Except.ok (sNew, b)) :
    init_plugin s bv = Except.ok sNew := by
  unfold explain_instruction at h
  cases hinit : init_plugin s bv with
  | error e => rw [hinit] at h; exact absurd h (by simp)
  | ok s2 =>
    rw [hinit] at h
    simp only [Except.ok.injEq, Prod.mk.injEq] at h
    rw [h.1]

/-- The display bundle produced for `bvX86` at address 0: the superseding
override line alone, dereferenced display IL, verbatim flags. -/
def bundleX86 : DisplayBundle :=
  { instruction := "0x0:  lock cmpxchg eax, ebx"
  , description := ["Performs atomic compare-and-swap"]
  , llil := ["temp0 = eax - ebx", "flag:z <main>"]
  , mlil := ["eax = 1"]
  , flags := [([], ["z"], stmtCmp), ([], [], stmtBr)]
  , state := some { registers := [("eax", 1)] }
  , warnings := [] }

/-- C1: the override/explainer merge rule of `explain_instruction` — nonempty
override lines with supersede replace everything; nonempty override lines
without supersede are followed by the explainer output over the folded units;
empty override lines leave the explainer output alone. -/
theorem merge_rule (s : PluginState) (bv : Bv) (addr : Nat)
    (sNew : PluginState) (b : DisplayBundle) (sup : Bool) (L : List String)
    (h : explain_instruction s bv addr = Except.ok (sNew, b))
    (ho : currentFn sNew bv bv.instructionText bv.lifted_il_list = (sup, L)) :
    (L ≠ [] → sup = true → b.description = L) ∧
    (L ≠ [] → sup = false → b.description = L ++ explainerOutput bv) ∧
    (L = [] → b.description = explainerOutput bv) := by
  have hinit := explain_instruction_ok_inv s bv addr sNew b h
  rw [explain_instruction_ok_eq s bv addr sNew hinit] at h
  simp only [Except.ok.injEq, Prod.mk.injEq] at h
  obtain ⟨-, hb⟩ := h
  subst hb
  refine ⟨fun hne hsup => ?_, fun hne hsup => ?_, fun hnil => ?_⟩
  · subst hsup
    simp [ho, List.length_pos.mpr hne]
  · subst hsup
    simp [ho, List.length_pos.mpr hne]
  · subst hnil
    simp [ho]

/-- Witness for C1 at the concrete x86 atomic compare-and-swap run, whose
override supersedes: the final lines equal exactly the override line. -/
theorem merge_rule_w :
    explain_instruction initState bvX86 0 = Except.ok (stateX86, bundleX86) ∧
    bundleX86.description = ["Performs atomic compare-and-swap"] :=
  ⟨by decide,
    (merge_rule initState bvX86 0 stateX86 bundleX86 true
        ["Performs atomic compare-and-swap"] (by decide) (by decide)).1
      (by simp) rfl⟩

/-- Reachability invariant of the plugin globals: a cached architecture name
is always one that matches some registered module (the cache is only ever
written right after a successful match). -/
def ValidCache (s : PluginState) : Prop :=
  ∀ n, s.arch = some n → (matchArch n).isSome = true

theorem validCache_initState : ValidCache initState := by
  intro n h
  simp [initState] at h

theorem init_plugin_preserves_validCache (s : PluginState) (bv : Bv)
    (sNew : PluginState) (hv : ValidCache s)
    (h : init_plugin s bv = Except.ok sNew) : ValidCache sNew := by
  unfold init_plugin at h
  by_cases hc : s.arch = some bv.archName
  · rw [if_pos hc] at h
    cases h
    exact hv
  · rw [if_neg hc] at h
    cases hm : matchArch bv.archName with
    | none => rw [hm] at h; cases h
    | some m =>
      rw [hm] at h
      cases h
      intro n hn
      simp only [Option.some.injEq] at hn
      rw [← hn, hm]
      rfl

/-- Sample host view reporting the unsupported architecture name "riscv". -/
def bvRiscv : Bv := { bvX86 with archName := "riscv" }

/-- C3: an architecture name matching no registered module makes the
invocation fail with the unsupported-architecture error, and no display
bundle is produced for it. -/
theorem unsupported_arch_aborts (s : PluginState) (bv : Bv) (addr : Nat)
    (hv : ValidCache s) (hm : matchArch bv.archName = none) :
    explain_instruction s bv addr =
      Except.error "Could not identify architecture type!" ∧
    ∀ p : PluginState × DisplayBundle,
      explain_instruction s bv addr ≠ Except.ok p := by
  have hc : s.arch ≠ some bv.archName := by
    intro hceq
    have := hv bv.archName hceq
    rw [hm] at this
    exact absurd this (by simp)
  have hinit : init_plugin s bv = Except.error "Could not identify architecture type!" := by
    unfold init_plugin
    rw [if_neg hc, hm]
  constructor
  · unfold explain_instruction
    rw [hinit]
  · intro p hp
    unfold explain_instruction at hp
    rw [hinit] at hp
    exact absurd hp (by simp)

/-- Witness for C3 at the concrete name "riscv" from the fresh plugin state:
the invocation errors and is not an ok result. -/
theorem unsupported_arch_aborts_w :
    explain_instruction initState bvRiscv 0 =
      Except.error "Could not identify architecture type!" ∧
    explain_instruction initState bvRiscv 0 ≠ Except.ok (stateX86, bundleX86) :=
  ⟨(unsupported_arch_aborts initState bvRiscv 0 validCache_initState (by decide)).1,
    (unsupported_arch_aborts initState bvRiscv 0 validCache_initState
      (by decide)).2 (stateX86, bundleX86)⟩

/-- Counterexample to C4 as stated: with the x86 selection cached, the
invocation for the differing name "riscv" does not replace the cached name
and function with a fresh selection — `init_plugin` raises and produces no
updated globals at all. -/
theorem cache_rederive_cex :
    stateX86.arch ≠ some bvRiscv.archName ∧
    init_plugin stateX86 bvRiscv =
      Except.error "Could not identify architecture type!" ∧
    ∀ sNew : PluginState, init_plugin stateX86 bvRiscv ≠ Except.ok sNew := by
  refine ⟨by decide, by decide, fun sNew h => ?_⟩
  rw [show init_plugin stateX86 bvRiscv =
      Except.error "Could not identify architecture type!" from by decide] at h
  exact absurd h (by simp)

/-- C4 amended: an invocation with the cached architecture name leaves the
cached selection untouched; an invocation with a differing name that matches
a registered module replaces both the cached name and the selected override
function; an invocation with a differing name that matches no module raises
the unsupported-architecture error and yields no updated selection. -/
theorem cache_rederive (s : PluginState) (bv : Bv) :
    (s.arch = some bv.archName → init_plugin s bv = Except.ok s) ∧
    (s.arch ≠ some bv.archName → ∀ m, matchArch bv.archName = some m →
      init_plugin s bv =
        Except.ok { arch := some bv.archName, fnTag := some m }) ∧
    (s.arch ≠ some bv.archName → matchArch bv.archName = none →
      init_plugin s bv =
        Except.error "Could not identify architecture type!") := by
  refine ⟨fun hc => ?_, fun hc m hm => ?_, fun hc hm => ?_⟩
  · unfold init_plugin
    rw [if_pos hc]
  · unfold init_plugin
    rw [if_neg hc, hm]
  · unfold init_plugin
    rw [if_neg hc, hm]

/-- Witness for the amended C4 at concrete inputs: the matching cached name
is kept as-is, a fresh x86 name replaces both globals, and the unmatched
"riscv" name errors. -/
theorem cache_rederive_w :
    init_plugin stateX86 bvX86 = Except.ok stateX86 ∧
    init_plugin initState bvX86 = Except.ok stateX86 ∧
    init_plugin stateX86 bvRiscv =
      Except.error "Could not identify architecture type!" :=
  ⟨(cache_rederive stateX86 bvX86).1 (by decide),
    (cache_rederive initState bvX86).2.1 (by decide) ArchModuleId.x86 (by decide),
    (cache_rederive stateX86 bvRiscv).2.2 (by decide) (by decide)⟩

/-- C6: symbol dereferencing is applied statement-by-statement to the
low-level and mid-level IL display text only; the final description lines are
exactly the override/explainer merge output, with no dereference pass. -/
theorem deref_display_only (s : PluginState) (bv : Bv) (addr : Nat)
    (sNew : PluginState) (b : DisplayBundle) (sup : Bool) (L : List String)
    (h : explain_instruction s bv addr = Except.ok (sNew, b))
    (ho : currentFn sNew bv bv.instructionText bv.lifted_il_list = (sup, L)) :
    b.llil = bv.llil_list.map (dereference_symbols bv) ∧
    b.mlil = bv.mlil_list.map (dereference_symbols bv) ∧
    b.description =
      (if L.length > 0 then
        if sup then L else L ++ explainerOutput bv
      else explainerOutput bv) := by
  have hinit := explain_instruction_ok_inv s bv addr sNew b h
  rw [explain_instruction_ok_eq s bv addr sNew hinit] at h
  simp only [Except.ok.injEq, Prod.mk.injEq] at h
  obtain ⟨-, hb⟩ := h
  subst hb
  refine ⟨rfl, rfl, ?_⟩
  simp [ho]

/-- Witness for C6 at the concrete x86 compare-and-swap run: llil and mlil
are the dereferenced display text and the description is the merge output. -/
theorem deref_display_only_w :
    bundleX86.llil = ["temp0 = eax - ebx", "flag:z <main>"] ∧
    bundleX86.mlil = ["eax = 1"] ∧
    bundleX86.description = ["Performs atomic compare-and-swap"] := by
  have h := deref_display_only initState bvX86 0 stateX86 bundleX86 true
    ["Performs atomic compare-and-swap"] (by decide) (by decide)
  exact ⟨h.1.trans (by decide), h.2.1.trans (by decide), h.2.2.trans (by decide)⟩

/-- Sample host view whose instruction has neither low-level nor lifted IL
and triggers no override special case. -/
def bvEmptyIL : Bv :=
  { bvX86 with instructionText := "cmp eax, ebx", lifted_il_list := [], llil_list := [] }

/-- Projection of an invocation result onto the bundle it delivers, if any. -/
def resultBundle : Except String (PluginState × DisplayBundle) → Option DisplayBundle
  | Except.ok p => some p.2
  | Except.error _ => none

/-- C7: with both IL sequences empty and no override lines, the invocation
still succeeds, the description degrades to the empty line list, and the raw
instruction text is still delivered. -/
theorem missing_il_degrades (s : PluginState) (bv : Bv) (addr : Nat)
    (sNew : PluginState)
    (hinit : init_plugin s bv = Except.ok sNew)
    (hll : bv.llil_list = []) (hlift : bv.lifted_il_list = [])
    (hov : (currentFn sNew bv bv.instructionText bv.lifted_il_list).2 = []) :
    (explain_instruction s bv addr).isOk = true ∧
    Option.map DisplayBundle.description (resultBundle (explain_instruction s bv addr)) =
      some [] ∧
    Option.map DisplayBundle.instruction (resultBundle (explain_instruction s bv addr)) =
      some (hexAddr addr ++ ":  " ++ bv.instructionText) := by
  rw [explain_instruction_ok_eq s bv addr sNew hinit]
  rw [hlift] at hov
  refine ⟨rfl, ?_, rfl⟩
  simp [resultBundle, hov, explainerOutput, hll, hlift, ilSource, fold_multi_il]

/-- Witness for C7 at the concrete IL-less compare instruction: the result is
delivered with an empty description and the raw instruction line. -/
theorem missing_il_degrades_w :
    (explain_instruction initState bvEmptyIL 0).isOk = true ∧
    Option.map DisplayBundle.description (resultBundle (explain_instruction initState bvEmptyIL 0)) =
      some [] ∧
    Option.map DisplayBundle.instruction (resultBundle (explain_instruction initState bvEmptyIL 0)) =
      some "0x0:  cmp eax, ebx" := by
  have h := missing_il_degrades initState bvEmptyIL 0 stateX86
    (by decide) (by decide) (by decide) (by decide)
  exact ⟨h.1, h.2.1, h.2.2.trans (by decide)⟩

/-- C8: the flags triples of the bundle are, for every lifted-IL statement in
order, exactly the host's flags-read and flags-written answers at that
statement's IL index, paired with the statement itself, copied verbatim. -/
theorem flags_copied_verbatim (s : PluginState) (bv : Bv) (addr : Nat)
    (sNew : PluginState) (b : DisplayBundle)
    (h : explain_instruction s bv addr = Except.ok (sNew, b)) :
    b.flags = bv.lifted_il_list.map (fun lifted =>
      (bv.flagsRead lifted.instr_index, bv.flagsWritten lifted.instr_index, lifted)) := by
  have hinit := explain_instruction_ok_inv s bv addr sNew b h
  rw [explain_instruction_ok_eq s bv addr sNew hinit] at h
  simp only [Except.ok.injEq, Prod.mk.injEq] at h
  obtain ⟨-, hb⟩ := h
  subst hb
  rfl

/-- Witness for C8 at the concrete x86 run: the two lifted statements yield
their host-reported flag sets, in order. -/
theorem flags_copied_verbatim_w :
    bundleX86.flags = [([], ["z"], stmtCmp), ([], [], stmtBr)] :=
  (flags_copied_verbatim initState bvX86 0 stateX86 bundleX86 (by decide)).trans
    (by decide)

/-- Sample host view for which the instruction-state collaborator signals
that pre-execution state is unavailable. -/
def bvNoState : Bv := { bvX86 with stateResult := none }

/-- The display bundle produced for `bvNoState` at address 0: state omitted,
warning logged, everything else as for `bvX86`. -/
def bundleNoState : DisplayBundle :=
  { bundleX86 with
    state := none
  , warnings := ["No instruction state support for this architecture"] }

/-- C9: when pre-execution state is unavailable, the invocation still
delivers its bundle (show() runs): the state field is omitted, the warning is
logged, and every other field is still produced as usual. -/
theorem state_unavailable_recovers (s : PluginState) (bv : Bv) (addr : Nat)
    (sNew : PluginState) (b : DisplayBundle)
    (hun : bv.stateResult = none)
    (h : explain_instruction s bv addr = Except.ok (sNew, b)) :
    (explain_instruction s bv addr).isOk = true ∧
    b.state = none ∧
    b.warnings = ["No instruction state support for this architecture"] ∧
    b.instruction = hexAddr addr ++ ":  " ++ bv.instructionText ∧
    b.llil = bv.llil_list.map (dereference_symbols bv) ∧
    b.mlil = bv.mlil_list.map (dereference_symbols bv) ∧
    b.flags = bv.lifted_il_list.map (fun lifted =>
      (bv.flagsRead lifted.instr_index, bv.flagsWritten lifted.instr_index, lifted)) := by
  have hinit := explain_instruction_ok_inv s bv addr sNew b h
  rw [explain_instruction_ok_eq s bv addr sNew hinit] at h
  simp only [Except.ok.injEq, Prod.mk.injEq] at h
  obtain ⟨-, hb⟩ := h
  subst hb
  refine ⟨by rw [explain_instruction_ok_eq s bv addr sNew hinit]; rfl,
    by simp [hun], by simp [hun], rfl, rfl, rfl, rfl⟩

/-- Witness for C9 at the concrete state-less x86 run: the bundle is shown
with the state omitted and the warning logged. -/
theorem state_unavailable_recovers_w :
    (explain_instruction initState bvNoState 0).isOk = true ∧
    bundleNoState.state = none ∧
    bundleNoState.warnings = ["No instruction state support for this architecture"] := by
  have h := state_unavailable_recovers initState bvNoState 0 stateX86 bundleNoState
    (by decide) (by decide)
  exact ⟨h.1, h.2.1, h.2.2.1⟩

end BinjaExplain
